import Mathlib

/-!
# TideCalc — examples/AlmanacOled/tides.h

The header declares `class TideCalc` with a constructor and three member
functions and no data member.  The bodies of the four operations are not part
of the header.  The development below has two layers:

* the class declaration itself, transcribed member by member
  (`TideCalc.members`), and the instance state it induces (`TideCalc`, a
  record without fields);
* `TideCalcOps`: the four bodies taken as parameters, with the signatures the
  header gives them, running over the instance plus whatever program state
  lives outside the instance.

What the bodies return is not decided by the header: `countingOps` is a body
set with the declared signatures whose tide height depends on the call history.
-/

namespace Almanac

/-! ## The declaration -/

/-- The types that occur in the member declarations of tides.h. -/
inductive CType where
  | float
  | charPtr
  | long
  | dateTime
  deriving DecidableEq, Repr

/-- Access level of a class member. -/
inductive Access where
  | isPublic
  | isProtected
  | isPrivate
  deriving DecidableEq, Repr

/-- What sort of member a declaration introduces. -/
inductive MemberKind where
  | ctor
  | method
  | dataMember
  deriving DecidableEq, Repr

/-- One member declaration of a class body: access level, sort, name,
parameter types (`(void)` is the empty list) and return type (a constructor
has none). -/
structure MemberDecl where
  access : Access
  kind : MemberKind
  name : String
  params : List CType
  ret : Option CType
  deriving DecidableEq, Repr

/-- The body of `class TideCalc` in tides.h, lines 7-13, in source order.
Everything follows the single `public:` label. -/
def TideCalc.members : List MemberDecl :=
  [ { access := .isPublic, kind := .ctor, name := "TideCalc",
      params := [], ret := none },
    { access := .isPublic, kind := .method, name := "currentTide",
      params := [.dateTime], ret := some .float },
    { access := .isPublic, kind := .method, name := "returnStationID",
      params := [], ret := some .charPtr },
    { access := .isPublic, kind := .method, name := "returnStationIDnumber",
      params := [], ret := some .long } ]

/-- The declarations of `class TideCalc` carrying a given name. -/
def TideCalc.declared (name : String) : List MemberDecl :=
  TideCalc.members.filter (fun m => m.name == name)

/-- The data members of `class TideCalc`. -/
def TideCalc.dataMembers : List MemberDecl :=
  TideCalc.members.filter (fun m => m.kind == .dataMember)

/-! ## Instance state and operations -/

/-- Instance state of `class TideCalc`: one field per data member of the class.
The class declares none (`TideCalc.dataMembers` is empty), so the record has no
field. -/
structure TideCalc where
  deriving DecidableEq, Repr

/-- Program state as an operation of `TideCalc` sees it: the instance it is
called on, and `ambient`, all state of the program outside the instance
(file-level variables and tables of the implementation file). -/
structure State (Amb : Type) where
  ambient : Amb
  self : TideCalc

/-- The four operations declared in tides.h, with their declared signatures.
Their bodies are not in the header and are taken as parameters: each may read
and write the instance and the ambient state.  `DateTime` is the clock
library's type (RTClib.h, external), `CFloat` the values of C++ `float`;
`char*` results are modelled by the text they point to, `long` by `Int`. -/
structure TideCalcOps (Amb DateTime CFloat : Type) where
  construct : Amb → State Amb
  currentTide : State Amb → DateTime → CFloat × State Amb
  returnStationID : State Amb → String × State Amb
  returnStationIDnumber : State Amb → Int × State Amb

/-- A call of one of the three member functions. -/
inductive Call (DateTime : Type) where
  | currentTide (now : DateTime)
  | returnStationID
  | returnStationIDnumber
  deriving Repr

/-- The value a call returns. -/
inductive Value (CFloat : Type) where
  | height (h : CFloat)
  | name (s : String)
  | number (n : Int)
  deriving DecidableEq, Repr

/-- Perform one call: the value returned and the state afterwards. -/
def TideCalcOps.call {Amb DateTime CFloat : Type}
    (ops : TideCalcOps Amb DateTime CFloat) (st : State Amb) :
    Call DateTime → Value CFloat × State Amb
  | .currentTide now => (.height (ops.currentTide st now).1, (ops.currentTide st now).2)
  | .returnStationID => (.name (ops.returnStationID st).1, (ops.returnStationID st).2)
  | .returnStationIDnumber =>
      (.number (ops.returnStationIDnumber st).1, (ops.returnStationIDnumber st).2)

/-- The state after a sequence of calls, performed left to right. -/
def TideCalcOps.run {Amb DateTime CFloat : Type}
    (ops : TideCalcOps Amb DateTime CFloat) (st : State Amb) :
    List (Call DateTime) → State Amb
  | [] => st
  | c :: cs => ops.run (ops.call st c).2 cs

/-- A body set that keeps a call counter in a file-level variable and returns
it as the tide height: it has the declared signatures but a side effect. -/
def countingOps : TideCalcOps Nat Nat Int where
  construct := fun a => { ambient := a, self := {} }
  currentTide := fun st _ => (st.ambient, { st with ambient := st.ambient + 1 })
  returnStationID := fun st => ("", st)
  returnStationIDnumber := fun st => (0, st)

/-! ## Lemmas -/

/-- With a side effect in the body the history does show: the counting body
returns 0 on a fresh instance and 1 after one earlier query. -/
theorem countingOps_history_dependent :
    (countingOps.currentTide (countingOps.construct 0) 7).1 = 0 ∧
    (countingOps.currentTide
      (countingOps.run (countingOps.construct 0) [.currentTide 7]) 7).1 = 1 := by
  constructor <;> rfl

/-! ## Claims -/

/-- C4: TideCalc has no state transitions.  The class declares no data member,
and for every choice of bodies (side effects on the rest of the program
allowed), every instance, every starting state and every sequence of calls to
currentTide, returnStationID and returnStationIDnumber, the instance state
after the sequence equals the instance state the constructor produces. -/
theorem TideCalc_no_state_transitions {Amb DateTime CFloat : Type}
    (ops : TideCalcOps Amb DateTime CFloat)
    (a : Amb) (st : State Amb) (calls : List (Call DateTime)) :
    TideCalc.dataMembers = [] ∧ (ops.run st calls).self = (ops.construct a).self :=
  ⟨by decide, rfl⟩

/-- C6: the interface of TideCalc is exactly four members, all public and none
of them a data member: a constructor without parameters; currentTide, taking
one date/time value and returning float; returnStationID, without parameters,
returning char*; returnStationIDnumber, without parameters, returning long. -/
theorem TideCalc_interface_shape :
    TideCalc.members.length = 4 ∧
    (∀ m ∈ TideCalc.members, m.access = .isPublic ∧ m.kind ≠ .dataMember) ∧
    TideCalc.declared "TideCalc"
      = [⟨.isPublic, .ctor, "TideCalc", [], none⟩] ∧
    TideCalc.declared "currentTide"
      = [⟨.isPublic, .method, "currentTide", [.dateTime], some .float⟩] ∧
    TideCalc.declared "returnStationID"
      = [⟨.isPublic, .method, "returnStationID", [], some .charPtr⟩] ∧
    TideCalc.declared "returnStationIDnumber"
      = [⟨.isPublic, .method, "returnStationIDnumber", [], some .long⟩] := by
  refine ⟨rfl, ?_, ?_, ?_, ?_, ?_⟩
  · intro m hm
    simp only [TideCalc.members, List.mem_cons, List.mem_singleton, List.not_mem_nil,
      or_false] at hm
    rcases hm with h | h | h | h <;> subst h <;> exact ⟨rfl, by decide⟩
  all_goals decide

end Almanac
